import Mathlib

/-!
Verification of the Opportunity Classification & ROI Aggregation Engine
of the ai-audit-toolkit repository (src/audit_toolkit.py), shallowly
embedded: Python floats become exact rationals, `round(x, n)` becomes
round-half-to-even at `n` decimal places on rationals, and the
`float('inf')` payback sentinel becomes `none : Option ℚ`.
-/

namespace AuditToolkit

/-- Python `round` at integer precision: round half to even (banker's
rounding), on an exact rational. -/
def roundHalfEven (y : ℚ) : ℤ :=
  let f := ⌊y⌋
  if y - f < 1/2 then f
  else if y - f > 1/2 then f + 1
  else if f % 2 = 0 then f else f + 1

/-- Python `round(x, 2)` on an exact rational. -/
def round2 (q : ℚ) : ℚ := (roundHalfEven (q * 100) : ℚ) / 100

/-- Python `round(x, 1)` on an exact rational. -/
def round1 (q : ℚ) : ℚ := (roundHalfEven (q * 10) : ℚ) / 10

/-- `Opportunity` dataclass (src/audit_toolkit.py lines 38-58).
`category` defaults to `""` at construction and is then filled by
`__post_init__`; effort/impact/category stay raw strings as in the
source. -/
structure Opportunity where
  name : String
  description : String
  hours_saved_weekly : ℚ
  employees_affected : ℤ
  effort : String
  impact : String
  category : String
deriving DecidableEq, Repr

/-- The effort/impact-to-category rule inlined in
`Opportunity.__post_init__` (lines 50-58): three guarded cells, then an
unconditional `else` to `"deprioritize"`. -/
def classify (effort impact : String) : String :=
  if effort = "low" ∧ impact = "high" then "quick_win"
  else if effort = "high" ∧ impact = "high" then "big_swing"
  else if effort = "low" ∧ impact = "low" then "nice_to_have"
  else "deprioritize"

/-- `Opportunity.__post_init__` (lines 48-58): only when `category` is
falsy (the empty string) is it recomputed from effort/impact. -/
def Opportunity.postInit (o : Opportunity) : Opportunity :=
  if o.category = "" then
    { o with category := classify o.effort o.impact }
  else o

/-- The dataclass constructor followed by `__post_init__`: what
`Opportunity(...)` evaluates to in Python. The `category` argument is
`""` unless a caller passes it explicitly. -/
def Opportunity.make (name description : String) (hours_saved_weekly : ℚ)
    (employees_affected : ℤ) (effort impact category : String) : Opportunity :=
  Opportunity.postInit
    { name, description, hours_saved_weekly, employees_affected,
      effort, impact, category }

/-- The dict returned by `calculate_roi` (lines 203-213). `payback_months`
is `none` when the source returns `float('inf')`. -/
structure ROIResult where
  hourly_rate : ℚ
  hours_saved_weekly : ℚ
  weekly_savings : ℚ
  annual_savings : ℚ
  annual_revenue_potential : ℚ
  total_annual_value : ℚ
  roi_percentage : ℚ
  payback_months : Option ℚ
  implementation_cost : ℚ
deriving DecidableEq, Repr

/-- `calculate_roi` (src/audit_toolkit.py lines 171-213), line for line:
hourly rate from a 2080-hour year, a 0.7 efficiency haircut, 50% of freed
time redirected to revenue work valued at 2x salary cost, guarded ROI and
payback divisions, and the same rounding as the returned dict. -/
def calculate_roi (hours_saved_weekly : ℚ) (employees_affected : ℤ)
    (avg_annual_salary : ℚ) (implementation_cost : ℚ)
    (automation_efficiency : ℚ) : ROIResult :=
  let hourly_rate : ℚ := avg_annual_salary / 2080
  let actual_hours_saved : ℚ :=
    hours_saved_weekly * (employees_affected : ℚ) * automation_efficiency
  let weekly_savings : ℚ := actual_hours_saved * hourly_rate
  let annual_savings : ℚ := weekly_savings * 52
  let revenue_hours_weekly : ℚ := actual_hours_saved * 0.5
  let weekly_revenue_potential : ℚ := revenue_hours_weekly * hourly_rate * 2
  let annual_revenue_potential : ℚ := weekly_revenue_potential * 52
  let total_annual_value : ℚ := annual_savings + annual_revenue_potential
  let roi_percentage : ℚ :=
    if implementation_cost > 0 then
      ((annual_savings - implementation_cost) / implementation_cost) * 100
    else 0
  let payback_months : Option ℚ :=
    if annual_savings > 0 then
      some (implementation_cost / (annual_savings / 12))
    else none
  { hourly_rate := round2 hourly_rate
    hours_saved_weekly := round1 actual_hours_saved
    weekly_savings := round2 weekly_savings
    annual_savings := round2 annual_savings
    annual_revenue_potential := round2 annual_revenue_potential
    total_annual_value := round2 total_annual_value
    roi_percentage := round1 roi_percentage
    payback_months := payback_months.map round1
    implementation_cost := implementation_cost }

/-- `automation_efficiency` keyword default in `calculate_roi`'s
signature (line 176). -/
def defaultEfficiency : ℚ := 0.7

/-- `sum(o.hours_saved_weekly * o.employees_affected for o in opps)`. -/
def total_hours (opps : List Opportunity) : ℚ :=
  (opps.map (fun o => o.hours_saved_weekly * (o.employees_affected : ℚ))).sum

/-- `sum(o.employees_affected for o in opps)`. -/
def total_employees (opps : List Opportunity) : ℤ :=
  (opps.map (fun o => o.employees_affected)).sum

/-- The fixed category sequence iterated by `calculate_audit_roi`
(line 230). -/
def categories : List String :=
  ["quick_win", "big_swing", "nice_to_have", "deprioritize"]

/-- One iteration of the by-category loop (lines 230-240): skip an empty
category, otherwise recompute ROI over the category's opportunities with
a quarter of the implementation cost. -/
def category_roi (opps : List Opportunity) (avg_salary implementation_cost : ℚ)
    (cat : String) : Option (String × ROIResult) :=
  let cat_opps := opps.filter (fun o => o.category == cat)
  if cat_opps.isEmpty then none
  else
    some (cat, calculate_roi
      (total_hours cat_opps / ((max (total_employees cat_opps) 1 : ℤ) : ℚ))
      (total_employees cat_opps) avg_salary
      (implementation_cost * 0.25) defaultEfficiency)

/-- The dict returned by `calculate_audit_roi`: `by_category` is an
insertion-ordered association list, as a Python dict is. -/
structure AuditROI where
  combined : ROIResult
  by_category : List (String × ROIResult)
deriving DecidableEq, Repr

/-- `calculate_audit_roi` (src/audit_toolkit.py lines 215-245): reduce all
opportunities to a weighted per-person weekly rate with the denominator
floored at 1, compute the combined ROI, then the per-category ROIs over
the fixed category sequence. -/
def calculate_audit_roi (opps : List Opportunity)
    (avg_salary implementation_cost : ℚ) : AuditROI :=
  { combined := calculate_roi
      (total_hours opps / ((max (total_employees opps) 1 : ℤ) : ℚ))
      (total_employees opps) avg_salary implementation_cost defaultEfficiency
    by_category :=
      categories.filterMap (category_roi opps avg_salary implementation_cost) }

/-- The unrounded annual savings computed inside `calculate_roi` (the
quantity its payback guard tests against 0). -/
def annual_savings_raw (hours_saved_weekly : ℚ) (employees_affected : ℤ)
    (avg_annual_salary automation_efficiency : ℚ) : ℚ :=
  hours_saved_weekly * (employees_affected : ℚ) * automation_efficiency *
    (avg_annual_salary / 2080) * 52

/-- The three recognized qualitative levels for effort and impact. -/
def qualitative_levels : List String := ["low", "medium", "high"]

/-! ### Evaluation lemmas for the rounding helpers -/

theorem roundHalfEven_of_lt_half (y : ℚ) (n : ℤ) (h1 : (n : ℚ) ≤ y)
    (h2 : y < (n : ℚ) + 1/2) : roundHalfEven y = n := by
  have hf : ⌊y⌋ = n := Int.floor_eq_iff.mpr ⟨h1, by linarith⟩
  simp only [roundHalfEven, hf]
  rw [if_pos (by linarith)]

theorem roundHalfEven_of_gt_half (y : ℚ) (n : ℤ) (h1 : (n : ℚ) + 1/2 < y)
    (h2 : y < (n : ℚ) + 1) : roundHalfEven y = n + 1 := by
  have hf : ⌊y⌋ = n := Int.floor_eq_iff.mpr ⟨by linarith, h2⟩
  simp only [roundHalfEven, hf]
  rw [if_neg (by linarith), if_pos (by linarith)]

theorem round2_eq (q : ℚ) (n : ℤ) (h : roundHalfEven (q * 100) = n) :
    round2 q = (n : ℚ) / 100 := by
  rw [round2, h]

theorem round1_eq (q : ℚ) (n : ℤ) (h : roundHalfEven (q * 10) = n) :
    round1 q = (n : ℚ) / 10 := by
  rw [round1, h]

theorem round2_zero : round2 0 = 0 := by
  rw [round2_eq 0 0 (roundHalfEven_of_lt_half _ 0 (by norm_num) (by norm_num))]
  norm_num

theorem round1_zero : round1 0 = 0 := by
  rw [round1_eq 0 0 (roundHalfEven_of_lt_half _ 0 (by norm_num) (by norm_num))]
  norm_num

/-! ### Claims about classification (C1, C4, C6) -/

/-- Claim C1: over the nine (effort, impact) pairs drawn from
{low, medium, high} x {low, medium, high}, the category assigned at
`Opportunity` construction is `quick_win` iff effort=low and impact=high,
`big_swing` iff effort=high and impact=high, `nice_to_have` iff
effort=low and impact=low, and `deprioritize` in every other case. -/
theorem classify_table (nm d : String) (hq : ℚ) (emp : ℤ) (e i : String)
    (he : e ∈ qualitative_levels) (hi : i ∈ qualitative_levels) :
    ((Opportunity.make nm d hq emp e i "").category = "quick_win" ↔
        e = "low" ∧ i = "high") ∧
    ((Opportunity.make nm d hq emp e i "").category = "big_swing" ↔
        e = "high" ∧ i = "high") ∧
    ((Opportunity.make nm d hq emp e i "").category = "nice_to_have" ↔
        e = "low" ∧ i = "low") ∧
    (¬(e = "low" ∧ i = "high") → ¬(e = "high" ∧ i = "high") →
      ¬(e = "low" ∧ i = "low") →
      (Opportunity.make nm d hq emp e i "").category = "deprioritize") := by
  have hc : (Opportunity.make nm d hq emp e i "").category = classify e i := rfl
  rw [hc]
  fin_cases he <;> fin_cases hi <;> simp [classify]

theorem classify_table_witness :
    ((Opportunity.make "n" "d" 1 1 "medium" "high" "").category = "quick_win" ↔
        ("medium" : String) = "low" ∧ ("high" : String) = "high") ∧
    ((Opportunity.make "n" "d" 1 1 "medium" "high" "").category = "big_swing" ↔
        ("medium" : String) = "high" ∧ ("high" : String) = "high") ∧
    ((Opportunity.make "n" "d" 1 1 "medium" "high" "").category = "nice_to_have" ↔
        ("medium" : String) = "low" ∧ ("high" : String) = "low") ∧
    (¬(("medium" : String) = "low" ∧ ("high" : String) = "high") →
      ¬(("medium" : String) = "high" ∧ ("high" : String) = "high") →
      ¬(("medium" : String) = "low" ∧ ("high" : String) = "low") →
      (Opportunity.make "n" "d" 1 1 "medium" "high" "").category = "deprioritize") :=
  classify_table "n" "d" 1 1 "medium" "high" (by simp [qualitative_levels])
    (by simp [qualitative_levels])

/-- Claim C4, counterexample: the code raises no
`InvalidClassificationInput` error; constructing an `Opportunity` with the
unrecognized effort value `"extreme"` silently assigns the category
`deprioritize` through the unconditional `else` branch. -/
theorem classify_no_error_counterexample :
    (Opportunity.make "n" "d" 1 1 "extreme" "high" "").category =
      "deprioritize" := by
  have hc : (Opportunity.make "n" "d" 1 1 "extreme" "high" "").category =
      classify "extreme" "high" := rfl
  rw [hc]
  simp [classify]

/-- Claim C4, amended: an (effort, impact) pair with either component
outside {low, medium, high} is not rejected; construction falls through
to the `else` branch and silently assigns `deprioritize`. -/
theorem classify_out_of_domain (nm d : String) (hq : ℚ) (emp : ℤ)
    (e i : String)
    (h : e ∉ qualitative_levels ∨ i ∉ qualitative_levels) :
    (Opportunity.make nm d hq emp e i "").category = "deprioritize" := by
  have hc : (Opportunity.make nm d hq emp e i "").category = classify e i := rfl
  rw [hc]
  unfold classify
  rcases h with h | h
  · have h1 : e ≠ "low" := fun hh => h (by rw [hh]; simp [qualitative_levels])
    have h3 : e ≠ "high" := fun hh => h (by rw [hh]; simp [qualitative_levels])
    rw [if_neg (fun hh => h1 hh.1), if_neg (fun hh => h3 hh.1),
      if_neg (fun hh => h1 hh.1)]
  · have h1 : i ≠ "low" := fun hh => h (by rw [hh]; simp [qualitative_levels])
    have h3 : i ≠ "high" := fun hh => h (by rw [hh]; simp [qualitative_levels])
    rw [if_neg (fun hh => h3 hh.2), if_neg (fun hh => h3 hh.2),
      if_neg (fun hh => h1 hh.2)]

theorem classify_out_of_domain_witness :
    (Opportunity.make "n" "d" 1 1 "extreme" "medium" "").category =
      "deprioritize" :=
  classify_out_of_domain "n" "d" 1 1 "extreme" "medium"
    (Or.inl (by simp [qualitative_levels]))

/-- Claim C6, counterexample: `category` is independently settable. A
caller who passes a non-empty `category` to the constructor bypasses
classification entirely: constructing with effort=high, impact=low and an
explicit category `"quick_win"` stores `"quick_win"`, while the
classification of (high, low) is `"deprioritize"`. -/
theorem category_settable_counterexample :
    (Opportunity.make "n" "d" 1 1 "high" "low" "quick_win").category ≠
      classify "high" "low" := by
  have h1 : (Opportunity.make "n" "d" 1 1 "high" "low" "quick_win").category =
      "quick_win" := rfl
  have h2 : classify "high" "low" = "deprioritize" := by simp [classify]
  rw [h1, h2]
  simp

/-- Claim C6, amended: when an `Opportunity` is constructed with the
default empty `category`, the stored category equals the classification
of its (effort, impact) pair; and `__post_init__` never overwrites an
already non-empty category, so the stored value is not recomputed. -/
theorem category_derived_at_construction (o : Opportunity) :
    (o.category = "" → o.postInit.category = classify o.effort o.impact) ∧
    (o.category ≠ "" → o.postInit = o) := by
  constructor
  · intro h
    simp [Opportunity.postInit, h]
  · intro h
    simp [Opportunity.postInit, h]

/-! ### Projection lemmas for `calculate_roi` (definitional) -/

theorem calculate_roi_hourly_rate (h : ℚ) (e : ℤ) (s c eff : ℚ) :
    (calculate_roi h e s c eff).hourly_rate = round2 (s / 2080) := rfl

theorem calculate_roi_hours_saved (h : ℚ) (e : ℤ) (s c eff : ℚ) :
    (calculate_roi h e s c eff).hours_saved_weekly =
      round1 (h * (e : ℚ) * eff) := rfl

theorem calculate_roi_weekly_savings (h : ℚ) (e : ℤ) (s c eff : ℚ) :
    (calculate_roi h e s c eff).weekly_savings =
      round2 (h * (e : ℚ) * eff * (s / 2080)) := rfl

theorem calculate_roi_annual_savings (h : ℚ) (e : ℤ) (s c eff : ℚ) :
    (calculate_roi h e s c eff).annual_savings =
      round2 (h * (e : ℚ) * eff * (s / 2080) * 52) := rfl

theorem calculate_roi_annual_revenue (h : ℚ) (e : ℤ) (s c eff : ℚ) :
    (calculate_roi h e s c eff).annual_revenue_potential =
      round2 (h * (e : ℚ) * eff * 0.5 * (s / 2080) * 2 * 52) := rfl

theorem calculate_roi_total_value (h : ℚ) (e : ℤ) (s c eff : ℚ) :
    (calculate_roi h e s c eff).total_annual_value =
      round2 (h * (e : ℚ) * eff * (s / 2080) * 52 +
        h * (e : ℚ) * eff * 0.5 * (s / 2080) * 2 * 52) := rfl

theorem calculate_roi_roi_percentage (h : ℚ) (e : ℤ) (s c eff : ℚ) :
    (calculate_roi h e s c eff).roi_percentage =
      round1 (if c > 0 then
        ((h * (e : ℚ) * eff * (s / 2080) * 52 - c) / c) * 100 else 0) := rfl

theorem calculate_roi_payback (h : ℚ) (e : ℤ) (s c eff : ℚ) :
    (calculate_roi h e s c eff).payback_months =
      Option.map round1 (if h * (e : ℚ) * eff * (s / 2080) * 52 > 0 then
        some (c / (h * (e : ℚ) * eff * (s / 2080) * 52 / 12)) else none) := rfl

theorem calculate_roi_cost (h : ℚ) (e : ℤ) (s c eff : ℚ) :
    (calculate_roi h e s c eff).implementation_cost = c := rfl

/-! ### Claims about the single-group ROI computation (C2, C3, C5, C10) -/

/-- Claim C2, counterexample: at the spec's scenario input the code's
annual savings are 32550.00 (equal to 21 unrounded weekly hours times the
unrounded hourly rate times 52), not within 0.02 of the spec's 32552.52;
the annual revenue potential is 32550.00, not within 0.02 of 16276.26. -/
theorem calculate_roi_scenario_counterexample :
    ¬ (|(calculate_roi 10 3 62000 25000 defaultEfficiency).annual_savings -
          32552.52| ≤ 0.02 ∧
       |(calculate_roi 10 3 62000 25000 defaultEfficiency).annual_revenue_potential -
          16276.26| ≤ 0.02) := by
  rw [calculate_roi_annual_savings, calculate_roi_annual_revenue,
    round2_eq _ 3255000 (roundHalfEven_of_lt_half _ 3255000 (by norm_num [defaultEfficiency]) (by norm_num [defaultEfficiency])),
    round2_eq _ 3255000 (roundHalfEven_of_lt_half _ 3255000 (by norm_num [defaultEfficiency]) (by norm_num [defaultEfficiency]))]
  intro hcl
  have h1 := hcl.1
  rw [abs_le] at h1
  norm_num at h1

/-- Claim C2, amended: at the scenario input the code returns
hourly_rate = 29.81, hours_saved_weekly = 21.0, weekly_savings = 625.96,
annual_savings = 32550.00, annual_revenue_potential = 32550.00,
total_annual_value = 65100.00, roi_percentage = 30.2 and
payback_months = 9.2 (all exact after the code's own rounding). -/
theorem calculate_roi_scenario :
    (calculate_roi 10 3 62000 25000 defaultEfficiency).hourly_rate = 29.81 ∧
    (calculate_roi 10 3 62000 25000 defaultEfficiency).hours_saved_weekly = 21 ∧
    (calculate_roi 10 3 62000 25000 defaultEfficiency).weekly_savings = 625.96 ∧
    (calculate_roi 10 3 62000 25000 defaultEfficiency).annual_savings = 32550 ∧
    (calculate_roi 10 3 62000 25000 defaultEfficiency).annual_revenue_potential = 32550 ∧
    (calculate_roi 10 3 62000 25000 defaultEfficiency).total_annual_value = 65100 ∧
    (calculate_roi 10 3 62000 25000 defaultEfficiency).roi_percentage = 30.2 ∧
    (calculate_roi 10 3 62000 25000 defaultEfficiency).payback_months = some 9.2 := by
  refine ⟨?_, ?_, ?_, ?_, ?_, ?_, ?_, ?_⟩
  · rw [calculate_roi_hourly_rate,
      round2_eq _ (2980 + 1) (roundHalfEven_of_gt_half _ 2980 (by norm_num) (by norm_num))]
    norm_num
  · rw [calculate_roi_hours_saved,
      round1_eq _ 210 (roundHalfEven_of_lt_half _ 210 (by norm_num [defaultEfficiency]) (by norm_num [defaultEfficiency]))]
    norm_num
  · rw [calculate_roi_weekly_savings,
      round2_eq _ 62596 (roundHalfEven_of_lt_half _ 62596 (by norm_num [defaultEfficiency]) (by norm_num [defaultEfficiency]))]
    norm_num
  · rw [calculate_roi_annual_savings,
      round2_eq _ 3255000 (roundHalfEven_of_lt_half _ 3255000 (by norm_num [defaultEfficiency]) (by norm_num [defaultEfficiency]))]
    norm_num
  · rw [calculate_roi_annual_revenue,
      round2_eq _ 3255000 (roundHalfEven_of_lt_half _ 3255000 (by norm_num [defaultEfficiency]) (by norm_num [defaultEfficiency]))]
    norm_num
  · rw [calculate_roi_total_value,
      round2_eq _ 6510000 (roundHalfEven_of_lt_half _ 6510000 (by norm_num [defaultEfficiency]) (by norm_num [defaultEfficiency]))]
    norm_num
  · rw [calculate_roi_roi_percentage, if_pos (by norm_num),
      round1_eq _ 302 (roundHalfEven_of_lt_half _ 302 (by norm_num [defaultEfficiency]) (by norm_num [defaultEfficiency]))]
    norm_num
  · rw [calculate_roi_payback, if_pos (by norm_num [defaultEfficiency])]
    rw [Option.map_some']
    rw [round1_eq _ 92 (roundHalfEven_of_lt_half _ 92 (by norm_num [defaultEfficiency]) (by norm_num [defaultEfficiency]))]
    norm_num

/-- Claim C3: the division guards. With implementation cost 0 the ROI
percentage branch short-circuits to 0; with unrounded annual savings 0
the payback branch short-circuits to `none` (the embedding of the
source's `float('inf')`). Neither division is attempted. -/
theorem calculate_roi_zero_guards (h : ℚ) (e : ℤ) (s c eff : ℚ) :
    (c = 0 → (calculate_roi h e s c eff).roi_percentage = 0) ∧
    (annual_savings_raw h e s eff = 0 →
      (calculate_roi h e s c eff).payback_months = none) := by
  constructor
  · intro hc
    rw [calculate_roi_roi_percentage, hc, if_neg (by norm_num), round1_zero]
  · intro ha
    simp only [annual_savings_raw] at ha
    rw [calculate_roi_payback, ha, if_neg (by norm_num)]
    rfl

theorem calculate_roi_zero_guards_witness :
    (calculate_roi 0 3 62000 0 defaultEfficiency).roi_percentage = 0 ∧
    (calculate_roi 0 3 62000 0 defaultEfficiency).payback_months = none :=
  ⟨(calculate_roi_zero_guards 0 3 62000 0 defaultEfficiency).1 rfl,
   (calculate_roi_zero_guards 0 3 62000 0 defaultEfficiency).2
     (by norm_num [annual_savings_raw])⟩

/-- Claim C5, counterexample: no `InvalidFinancialInput` error exists in
the code. Called with the negative annual salary -2080 the engine
computes and returns figures: an hourly rate of -1 and annual savings of
-1092, rather than rejecting the input. -/
theorem financial_validation_counterexample :
    (calculate_roi 10 3 (-2080) 100 defaultEfficiency).hourly_rate = -1 ∧
    (calculate_roi 10 3 (-2080) 100 defaultEfficiency).annual_savings = -1092 := by
  constructor
  · rw [calculate_roi_hourly_rate,
      round2_eq _ (-100) (roundHalfEven_of_lt_half _ (-100) (by norm_num) (by norm_num))]
    norm_num
  · rw [calculate_roi_annual_savings,
      round2_eq _ (-109200) (roundHalfEven_of_lt_half _ (-109200) (by norm_num [defaultEfficiency]) (by norm_num [defaultEfficiency]))]
    norm_num

/-- Claim C5, amended: the ROI computations validate nothing. Even when
avg_salary is negative, hours are negative, employees are non-positive or
the implementation cost is negative, both `calculate_roi` and the
combined result of `calculate_audit_roi` are fully computed from the raw
inputs (the hourly rate is always `round2 (salary / 2080)`, the adjusted
hours always `round1 (hours * employees * efficiency)`). -/
theorem roi_inputs_not_validated (hrs : ℚ) (e : ℤ) (s c eff : ℚ)
    (opps : List Opportunity)
    (_hbad : s < 0 ∨ hrs < 0 ∨ e ≤ 0 ∨ c < 0) :
    (calculate_roi hrs e s c eff).hourly_rate = round2 (s / 2080) ∧
    (calculate_roi hrs e s c eff).hours_saved_weekly =
      round1 (hrs * (e : ℚ) * eff) ∧
    (calculate_audit_roi opps s c).combined.hourly_rate = round2 (s / 2080) :=
  ⟨rfl, rfl, rfl⟩

theorem roi_inputs_not_validated_witness :
    (calculate_roi 10 3 (-2080) 100 defaultEfficiency).hourly_rate =
      round2 ((-2080) / 2080) ∧
    (calculate_roi 10 3 (-2080) 100 defaultEfficiency).hours_saved_weekly =
      round1 (10 * ((3 : ℤ) : ℚ) * defaultEfficiency) ∧
    (calculate_audit_roi [] (-2080) 100).combined.hourly_rate =
      round2 ((-2080) / 2080) :=
  roi_inputs_not_validated 10 3 (-2080) 100 defaultEfficiency []
    (Or.inl (by norm_num))

/-- Claim C10: the ROI-percentage guard tests `implementation_cost > 0`,
so a strictly negative cost takes the same short-circuit branch as zero:
the function returns roi_percentage = 0 and does not fail. -/
theorem roi_percentage_negative_cost (h : ℚ) (e : ℤ) (s c eff : ℚ)
    (hc : c < 0) : (calculate_roi h e s c eff).roi_percentage = 0 := by
  rw [calculate_roi_roi_percentage, if_neg (not_lt.mpr hc.le), round1_zero]

theorem roi_percentage_negative_cost_witness :
    (calculate_roi 10 3 62000 (-25000) defaultEfficiency).roi_percentage = 0 :=
  roi_percentage_negative_cost 10 3 62000 (-25000) defaultEfficiency
    (by norm_num)

theorem category_derived_at_construction_witness :
    ((⟨"n", "d", 1, 1, "low", "high", ""⟩ : Opportunity).category = "" →
      (⟨"n", "d", 1, 1, "low", "high", ""⟩ : Opportunity).postInit.category =
        classify "low" "high") ∧
    ((⟨"n", "d", 1, 1, "low", "high", ""⟩ : Opportunity).category ≠ "" →
      (⟨"n", "d", 1, 1, "low", "high", ""⟩ : Opportunity).postInit =
        ⟨"n", "d", 1, 1, "low", "high", ""⟩) :=
  category_derived_at_construction ⟨"n", "d", 1, 1, "low", "high", ""⟩

/-! ### Claims about the aggregate ROI (C7, C8, C9) -/

/-- Claim C7: for every opportunity list, positive salary and
non-negative cost, the aggregate's combined result is exactly the
single-group ROI computation applied to the weighted-average per-person
rate (denominator floored at 1), the summed employee count, the given
salary and the full implementation cost; and on the empty list the
denominator is floored to 1 and the by-category mapping is empty. -/
theorem calculate_audit_roi_combined (opps : List Opportunity) (s c : ℚ)
    (_hs : 0 < s) (_hc : 0 ≤ c) :
    (calculate_audit_roi opps s c).combined =
      calculate_roi
        (total_hours opps / ((max (total_employees opps) 1 : ℤ) : ℚ))
        (total_employees opps) s c defaultEfficiency ∧
    (opps = [] →
      (calculate_audit_roi opps s c).by_category = [] ∧
      (max (total_employees opps) 1 : ℤ) = 1) := by
  refine ⟨rfl, ?_⟩
  rintro rfl
  exact ⟨rfl, rfl⟩

theorem calculate_audit_roi_combined_witness :
    (calculate_audit_roi [] 1 0).combined =
      calculate_roi
        (total_hours [] / ((max (total_employees []) 1 : ℤ) : ℚ))
        (total_employees []) 1 0 defaultEfficiency ∧
    (([] : List Opportunity) = [] →
      (calculate_audit_roi [] 1 0).by_category = [] ∧
      (max (total_employees []) 1 : ℤ) = 1) :=
  calculate_audit_roi_combined [] 1 0 (by norm_num) (by norm_num)

/-- Inversion for one step of the by-category loop: a produced entry is
keyed by the loop's own category, comes from a non-empty filtered group,
and carries the quarter-cost ROI of that group. -/
theorem category_roi_some (opps : List Opportunity) (s c : ℚ)
    (c' cat : String) (v : ROIResult)
    (h : category_roi opps s c c' = some (cat, v)) :
    c' = cat ∧ (opps.filter (fun o => o.category == cat)).isEmpty = false ∧
    v = calculate_roi
      (total_hours (opps.filter (fun o => o.category == cat)) /
        ((max (total_employees (opps.filter (fun o => o.category == cat))) 1 : ℤ) : ℚ))
      (total_employees (opps.filter (fun o => o.category == cat)))
      s (c * 0.25) defaultEfficiency := by
  simp only [category_roi] at h
  split at h
  · exact absurd h (by simp)
  · rename_i hne
    rw [Option.some.injEq, Prod.mk.injEq] at h
    obtain ⟨rfl, rfl⟩ := h
    simp only [Bool.not_eq_true] at hne
    exact ⟨rfl, hne, rfl⟩

/-- A category inhabited by some opportunity produces its entry. -/
theorem category_roi_of_mem (opps : List Opportunity) (s c : ℚ)
    (cat : String) (o : Opportunity) (ho : o ∈ opps) (hoc : o.category = cat) :
    category_roi opps s c cat = some (cat, calculate_roi
      (total_hours (opps.filter (fun o => o.category == cat)) /
        ((max (total_employees (opps.filter (fun o => o.category == cat))) 1 : ℤ) : ℚ))
      (total_employees (opps.filter (fun o => o.category == cat)))
      s (c * 0.25) defaultEfficiency) := by
  simp only [category_roi]
  rw [if_neg]
  intro hemp
  rw [List.isEmpty_iff] at hemp
  have hmem : o ∈ opps.filter (fun o => o.category == cat) :=
    List.mem_filter.mpr ⟨ho, beq_iff_eq.mpr hoc⟩
  rw [hemp] at hmem
  exact absurd hmem (List.not_mem_nil o)

/-- Claim C8: for each of the four fixed categories, `by_category` holds
an entry iff some opportunity in the list has that category, and the
entry's value is the single-group ROI of the weighted-average reduction
restricted to that category's opportunities, computed against a quarter
of the implementation cost. -/
theorem audit_by_category (opps : List Opportunity) (s c : ℚ)
    (cat : String) (hcat : cat ∈ categories) :
    ((∃ v, (cat, v) ∈ (calculate_audit_roi opps s c).by_category) ↔
      ∃ o ∈ opps, o.category = cat) ∧
    (∀ v, (cat, v) ∈ (calculate_audit_roi opps s c).by_category →
      v = calculate_roi
        (total_hours (opps.filter (fun o => o.category == cat)) /
          ((max (total_employees (opps.filter (fun o => o.category == cat))) 1 : ℤ) : ℚ))
        (total_employees (opps.filter (fun o => o.category == cat)))
        s (c * 0.25) defaultEfficiency) := by
  have hby : (calculate_audit_roi opps s c).by_category =
      categories.filterMap (category_roi opps s c) := rfl
  constructor
  · constructor
    · rintro ⟨v, hv⟩
      rw [hby] at hv
      obtain ⟨c', _, hfc⟩ := List.mem_filterMap.mp hv
      obtain ⟨rfl, hne, _⟩ := category_roi_some opps s c c' cat v hfc
      have hnil : opps.filter (fun o => o.category == c') ≠ [] := by
        intro hemp
        rw [hemp] at hne
        simp at hne
      obtain ⟨o, ho⟩ := List.exists_mem_of_ne_nil _ hnil
      obtain ⟨hmem, hp⟩ := List.mem_filter.mp ho
      exact ⟨o, hmem, beq_iff_eq.mp hp⟩
    · rintro ⟨o, ho, hoc⟩
      exact ⟨_, hby ▸ List.mem_filterMap.mpr
        ⟨cat, hcat, category_roi_of_mem opps s c cat o ho hoc⟩⟩
  · intro v hv
    rw [hby] at hv
    obtain ⟨c', _, hfc⟩ := List.mem_filterMap.mp hv
    exact (category_roi_some opps s c c' cat v hfc).2.2

/-- A one-element opportunity list used to instantiate the by-category
theorem. -/
def sampleOpp : Opportunity := ⟨"s", "d", 5, 2, "low", "high", "quick_win"⟩

theorem audit_by_category_witness :
    ((∃ v, ("quick_win", v) ∈
        (calculate_audit_roi [sampleOpp] 2080 100).by_category) ↔
      ∃ o ∈ [sampleOpp], o.category = "quick_win") ∧
    (∀ v, ("quick_win", v) ∈
        (calculate_audit_roi [sampleOpp] 2080 100).by_category →
      v = calculate_roi
        (total_hours ([sampleOpp].filter (fun o => o.category == "quick_win")) /
          ((max (total_employees ([sampleOpp].filter (fun o => o.category == "quick_win"))) 1 : ℤ) : ℚ))
        (total_employees ([sampleOpp].filter (fun o => o.category == "quick_win")))
        2080 (100 * 0.25) defaultEfficiency) :=
  audit_by_category [sampleOpp] 2080 100 "quick_win" (by simp [categories])

/-- A deprioritized micro-opportunity whose annual savings round to zero
on their own but not in aggregate. -/
def tinyOpp (nm : String) : Opportunity :=
  ⟨nm, "d", 1/10000, 1, "medium", "medium", "deprioritize"⟩

/-- The two-element list exhibiting the aggregation discrepancy. -/
def tinyOpps : List Opportunity := [tinyOpp "a", tinyOpp "b"]

/-- Claim C9: the normalize-then-recompute aggregation is not the sum of
per-opportunity ROI computations. For two opportunities of 0.0001 weekly
hours each (one employee each, salary 2080, cost 100), each individual
annual savings figure rounds to 0.00 and the sum is 0.00, but the
combined computation rounds once at the end and reports 0.01; the total
annual value sums to 0.02 individually but 0.01 combined. -/
theorem combined_not_sum_of_singles :
    ∃ (opps : List Opportunity) (s c : ℚ),
      0 < total_employees opps ∧
      ((calculate_audit_roi opps s c).combined.annual_savings ≠
        (opps.map (fun o => (calculate_roi o.hours_saved_weekly
          o.employees_affected s c defaultEfficiency).annual_savings)).sum ∧
       (calculate_audit_roi opps s c).combined.total_annual_value ≠
        (opps.map (fun o => (calculate_roi o.hours_saved_weekly
          o.employees_affected s c defaultEfficiency).total_annual_value)).sum) := by
  have hTE : total_employees tinyOpps = 2 := rfl
  have hTH : total_hours tinyOpps =
      1/10000 * ((1 : ℤ) : ℚ) + (1/10000 * ((1 : ℤ) : ℚ) + 0) := rfl
  have hcomb : (calculate_audit_roi tinyOpps 2080 100).combined =
      calculate_roi
        (total_hours tinyOpps / ((max (total_employees tinyOpps) 1 : ℤ) : ℚ))
        (total_employees tinyOpps) 2080 100 defaultEfficiency := rfl
  have hmax : (max (2 : ℤ) 1) = 2 := rfl
  refine ⟨tinyOpps, 2080, 100, by rw [hTE]; norm_num, ?_, ?_⟩
  · have hsum : (tinyOpps.map (fun o => (calculate_roi o.hours_saved_weekly
        o.employees_affected 2080 100 defaultEfficiency).annual_savings)).sum =
        round2 (1/10000 * ((1 : ℤ) : ℚ) * defaultEfficiency * (2080 / 2080) * 52) +
          (round2 (1/10000 * ((1 : ℤ) : ℚ) * defaultEfficiency * (2080 / 2080) * 52) + 0) := rfl
    rw [hcomb, calculate_roi_annual_savings, hTH, hTE, hmax, hsum,
      round2_eq _ (0 + 1) (roundHalfEven_of_gt_half _ 0
        (by norm_num [defaultEfficiency]) (by norm_num [defaultEfficiency])),
      round2_eq _ 0 (roundHalfEven_of_lt_half _ 0
        (by norm_num [defaultEfficiency]) (by norm_num [defaultEfficiency]))]
    norm_num
  · have hsum : (tinyOpps.map (fun o => (calculate_roi o.hours_saved_weekly
        o.employees_affected 2080 100 defaultEfficiency).total_annual_value)).sum =
        round2 (1/10000 * ((1 : ℤ) : ℚ) * defaultEfficiency * (2080 / 2080) * 52 +
            1/10000 * ((1 : ℤ) : ℚ) * defaultEfficiency * 0.5 * (2080 / 2080) * 2 * 52) +
          (round2 (1/10000 * ((1 : ℤ) : ℚ) * defaultEfficiency * (2080 / 2080) * 52 +
            1/10000 * ((1 : ℤ) : ℚ) * defaultEfficiency * 0.5 * (2080 / 2080) * 2 * 52) + 0) := rfl
    rw [hcomb, calculate_roi_total_value, hTH, hTE, hmax,
      round2_eq _ 1 (roundHalfEven_of_lt_half _ 1
        (by norm_num [defaultEfficiency]) (by norm_num [defaultEfficiency])),
      hsum,
      round2_eq _ (0 + 1) (roundHalfEven_of_gt_half _ 0
        (by norm_num [defaultEfficiency]) (by norm_num [defaultEfficiency]))]
    norm_num

end AuditToolkit
